import Mathlib

/-!
Shallow embedding of the ticket inventory engine of the Rifa repository.

The embedded code lives in two source modules:
* `src/stores/raffle-store.ts` — the Zustand store: ticket selection,
  reservation, sale and release actions plus the derived available list;
* `src/hooks/useSupabaseSync.ts` — the Supabase sync hook (FOMO ticket
  generation, initial load) and the master-counter module (`calculateFOMO`,
  `updateMasterCounters`, the display hooks `useBasicCounters`,
  `useDisplayStats`).

Modelling conventions, applied uniformly:
* JS numbers that hold ticket counts or ticket numbers are modelled as `Nat`;
  quantities that the code can drive negative (the derived display available
  count) are modelled as `Int`.
* The percentage test `(n / 10000) * 100 >= 18` of the source is modelled by
  the exact integer comparison `n * 100 >= 18 * 10000`, which agrees with the
  float computation on every integer `n` in range.
* `Math.random()` draws are modelled as explicit parameters: a permutation
  parameter for the array shuffle in `quickSelect`, and a list of drawn
  candidates for the rejection-sampling loop in `generateFomoTickets`.
* `generateId()` and `new Date()` are modelled as explicit parameters
  (`idGen`, `now`); they never influence control flow.
* The deferred `setTimeout(() => get()._updateAvailableTickets(), 0)` calls
  are modelled by applying the recompute synchronously at the end of each
  action, which is the state they produce once the queued task runs.
* The reservation-TTL timer started inside `reserveTickets` is a scheduled
  future call of `releaseReservedTickets`; the timer itself is not part of
  the synchronous state transition and is not modelled.
* `formatTicketNumber` / `parseInt` (defined in `src/lib/utils.ts`, a file
  not present in the source tree) round-trip a ticket number through its
  zero-padded string form; the composition is the identity on numbers in
  range, so ticket numbers are kept as `Nat` throughout.
-/

/-- Total pool size. `TOTAL_TICKETS` is imported from `src/lib/constants.ts`
(not present in the tree); its value 10000 is hard-coded twice in
`useSupabaseSync.ts` (`const totalTickets = 10000`, `const TOTAL_TICKETS =
10000`) and fixed by the spec. -/
def TOTAL_TICKETS : Nat := 10000

/-- Ticket status in the store (`TicketStatus` in `src/lib/types.ts`). -/
inductive TicketStatus
  | available
  | reserved
  | sold
deriving DecidableEq, Repr

/-- Ticket object kept in the store array (`Ticket` in `src/lib/types.ts`);
the `number` field is the parsed numeric form of the formatted string. -/
structure Ticket where
  id : String
  number : Nat
  status : TicketStatus
  buyerId : Option String := none
  reservedAt : Option Nat := none
  purchaseDate : Option Nat := none
deriving DecidableEq, Repr

/-- Slice of the Zustand store state (`RaffleState` plus the derived
`availableTickets` list) that the ticket actions read and write. -/
structure RaffleState where
  tickets : List Ticket
  selectedTickets : List Nat
  soldTickets : List Nat
  reservedTickets : List Nat
  availableTickets : List Nat
  errors : List String
deriving DecidableEq, Repr

/-- The `_updateAvailableTickets` action: rebuild the available list as the
numbers `1..TOTAL_TICKETS` that are neither sold nor reserved. -/
def updateAvailableTickets (s : RaffleState) : RaffleState :=
  let available := (List.range' 1 TOTAL_TICKETS).filter
    (fun num => !(s.soldTickets.contains num || s.reservedTickets.contains num))
  { s with availableTickets := available }

/-- The `setSoldTicketsFromDB` action. -/
def setSoldTicketsFromDB (tickets : List Nat) (s : RaffleState) : RaffleState :=
  updateAvailableTickets { s with soldTickets := tickets }

/-- The `setReservedTicketsFromDB` action. -/
def setReservedTicketsFromDB (tickets : List Nat) (s : RaffleState) : RaffleState :=
  updateAvailableTickets { s with reservedTickets := tickets }

/-- String `includes` test, modelling `error.includes(sub)`. -/
def strIncludes (s sub : String) : Bool :=
  (s.splitOn sub).length ≥ 2

/-- The `quickSelect` action. The source shuffles a copy of
`availableTickets` with a `Math.random()` comparator; the shuffled copy is
passed in as the parameter `shuffled`. -/
def quickSelect (count : Nat) (shuffled : List Nat) (s : RaffleState) : RaffleState :=
  if s.availableTickets.length < count then
    { s with errors := s.errors ++
        ["Solo hay " ++ toString s.availableTickets.length ++ " tickets disponibles"] }
  else
    let selected := (shuffled.take count).insertionSort (· ≤ ·)
    { s with selectedTickets := selected,
             errors := s.errors.filter (fun e => !(strIncludes e "tickets disponibles")) }

/-- Update-or-append of one ticket object into the tickets array, by ticket
number (the `findIndex` / replace-or-push loop body shared by
`reserveTickets` and `markTicketsAsSold`). -/
def upsertTicket : List Ticket → Ticket → List Ticket
  | [], newTicket => [newTicket]
  | t :: ts, newTicket =>
    if t.number = newTicket.number then newTicket :: ts
    else t :: upsertTicket ts newTicket

/-- The `reserveTickets` action: append all requested numbers to
`reservedTickets`, upsert reserved ticket objects, clear the selection. -/
def reserveTickets (ticketNumbers : List Nat) (customerId : String)
    (idGen : Nat → String) (now : Nat) (s : RaffleState) : RaffleState :=
  let newReservedTickets := s.reservedTickets ++ ticketNumbers
  let reservedTicketObjects : List Ticket := ticketNumbers.map (fun num =>
    { id := idGen num, number := num, status := .reserved,
      buyerId := some customerId, reservedAt := some now })
  let updatedTickets := reservedTicketObjects.foldl upsertTicket s.tickets
  updateAvailableTickets
    { s with reservedTickets := newReservedTickets,
             tickets := updatedTickets,
             selectedTickets := [] }

/-- The store-side `markTicketsAsSold` action: append all numbers to
`soldTickets`, drop them from `reservedTickets`, upsert sold ticket
objects. -/
def markTicketsAsSold (ticketNumbers : List Nat) (customerId : String)
    (idGen : Nat → String) (now : Nat) (s : RaffleState) : RaffleState :=
  let newSoldTickets := s.soldTickets ++ ticketNumbers
  let updatedReservedTickets :=
    s.reservedTickets.filter (fun num => !(ticketNumbers.contains num))
  let soldTicketObjects : List Ticket := ticketNumbers.map (fun num =>
    { id := idGen num, number := num, status := .sold,
      buyerId := some customerId, purchaseDate := some now })
  let updatedTickets := soldTicketObjects.foldl upsertTicket s.tickets
  updateAvailableTickets
    { s with soldTickets := newSoldTickets,
             reservedTickets := updatedReservedTickets,
             tickets := updatedTickets }

/-- Per-ticket body of the `releaseReservedTickets` map: a requested ticket
that is currently reserved reverts to available with holder and timestamp
cleared; every other ticket is returned unchanged. -/
def releaseTicket (ticketNumbers : List Nat) (ticket : Ticket) : Ticket :=
  if ticketNumbers.contains ticket.number ∧ ticket.status = .reserved then
    { ticket with status := .available, buyerId := none, reservedAt := none }
  else ticket

/-- The `releaseReservedTickets` action: drop the numbers from
`reservedTickets` and revert the matching reserved ticket objects to
available. -/
def releaseReservedTickets (ticketNumbers : List Nat) (s : RaffleState) : RaffleState :=
  let updatedReservedTickets :=
    s.reservedTickets.filter (fun num => !(ticketNumbers.contains num))
  let updatedTickets := s.tickets.map (releaseTicket ticketNumbers)
  updateAvailableTickets
    { s with reservedTickets := updatedReservedTickets,
             tickets := updatedTickets }

/-- Ticket status values used in the Supabase `tickets` table
(`disponible` / `reservado` / `vendido`). -/
inductive DBStatus
  | disponible
  | reservado
  | vendido
deriving DecidableEq, Repr

/-- One row of the Supabase `tickets` table, keyed elsewhere by number. -/
structure DBRow where
  status : DBStatus
  customerId : Option String := none
  reservedAt : Option Nat := none
deriving DecidableEq, Repr

/-- The `reserveTicketsInDB` conditional update (connected case): rows whose
number is in the request and whose current status is `disponible` move to
`reservado` with the holder and timestamp; every other row is untouched.
The call reports success (`true`) whenever the query itself does not error,
regardless of how many rows matched. -/
def reserveTicketsInDB (ticketNumbers : List Nat) (customerId : String)
    (now : Nat) (db : Nat → DBRow) : (Nat → DBRow) × Bool :=
  (fun n =>
     if ticketNumbers.contains n ∧ (db n).status = .disponible then
       { status := .reservado, customerId := some customerId, reservedAt := some now }
     else db n,
   true)

/-- The FOMO threshold percentage (`FOMO_THRESHOLD = 18`). -/
def FOMO_THRESHOLD : Nat := 18

/-- The fixed synthetic additive (`FOMO_BASE_FIXED = 1200`). -/
def FOMO_BASE_FIXED : Nat := 1200

/-- Result record of `calculateFOMO`. -/
structure FomoResult where
  fomoCount : Nat
  displaySoldCount : Nat
  isActive : Bool
deriving DecidableEq, Repr

/-- The `calculateFOMO` function of the master-counter module: disabled at or
above the 18% threshold (display equals real), otherwise display equals real
plus the fixed additive. -/
def calculateFOMO (realSoldCount : Nat) : FomoResult :=
  if realSoldCount * 100 ≥ FOMO_THRESHOLD * TOTAL_TICKETS then
    { fomoCount := 0, displaySoldCount := realSoldCount, isActive := false }
  else
    { fomoCount := FOMO_BASE_FIXED,
      displaySoldCount := realSoldCount + FOMO_BASE_FIXED,
      isActive := true }

/-- The master-counter snapshot (`MasterCounterData`). The float-valued
percentage fields and the connection metadata of the source record are
display-only and carry no ticket accounting; they are omitted. -/
structure MasterCounterData where
  totalTickets : Nat
  soldTickets : Nat
  reservedTickets : Nat
  availableTickets : Int
  fomoSoldTickets : Nat
  fomoIsActive : Bool
deriving DecidableEq, Repr

/-- Core state computation of `updateMasterCounters` (connected case), given
the sold and reserved counts fetched from the database: the real available
count is derived as `total - sold - reserved` and the display sold count
comes from `calculateFOMO`. -/
def updateMasterCounters (sold reserved : Nat) : MasterCounterData :=
  let available : Int := (TOTAL_TICKETS : Int) - (sold : Int) - (reserved : Int)
  let fomo := calculateFOMO sold
  { totalTickets := TOTAL_TICKETS,
    soldTickets := sold,
    reservedTickets := reserved,
    availableTickets := available,
    fomoSoldTickets := fomo.displaySoldCount,
    fomoIsActive := fomo.isActive }

/-- Snapshot returned by the `useBasicCounters` hook (display layer). -/
structure BasicCounters where
  totalTickets : Nat
  soldTickets : Nat
  availableTickets : Int
deriving DecidableEq, Repr

/-- The `useBasicCounters` hook: publishes the FOMO sold count and an
available count derived as `total - displaySold - reserved`. -/
def useBasicCounters (data : MasterCounterData) : BasicCounters :=
  let displaySoldTickets := data.fomoSoldTickets
  let displayAvailableTickets : Int :=
    (TOTAL_TICKETS : Int) - (displaySoldTickets : Int) - (data.reservedTickets : Int)
  { totalTickets := data.totalTickets,
    soldTickets := displaySoldTickets,
    availableTickets := displayAvailableTickets }

/-- Snapshot returned by the `useDisplayStats` hook. -/
structure DisplayStats where
  soldCount : Nat
  availableCount : Int
  reservedCount : Nat
  totalCount : Nat
  realSoldCount : Nat
deriving DecidableEq, Repr

/-- The `useDisplayStats` hook: same derivation of the display available
count, alongside the real reserved and total counts. -/
def useDisplayStats (data : MasterCounterData) : DisplayStats :=
  let displaySoldCount := data.fomoSoldTickets
  let displayAvailableCount : Int :=
    (TOTAL_TICKETS : Int) - (displaySoldCount : Int) - (data.reservedTickets : Int)
  { soldCount := displaySoldCount,
    availableCount := displayAvailableCount,
    reservedCount := data.reservedTickets,
    totalCount := data.totalTickets,
    realSoldCount := data.soldTickets }

/-- Rejection-sampling loop of `generateFomoTickets` (`while
(fomoTickets.length < fomoNeeded) ...`): each drawn candidate is kept when it
is neither a real sold number nor already drawn. The unbounded JS loop is
modelled over the finite list of candidates actually drawn. -/
def fomoLoop (realSoldTickets : List Nat) (fomoNeeded : Nat) :
    List Nat → List Nat → List Nat
  | [], acc => acc
  | d :: rest, acc =>
    if acc.length < fomoNeeded then
      if !(realSoldTickets.contains d) && !(acc.contains d) then
        fomoLoop realSoldTickets fomoNeeded rest (acc ++ [d])
      else
        fomoLoop realSoldTickets fomoNeeded rest acc
    else acc

/-- The `generateFomoTickets` function of `useSupabaseSync`: below the 18%
real threshold it pads the real sold list with random tickets up to
`fomoPercentage` percent of the pool, excluding only the real sold numbers,
then sorts the combined list. -/
def generateFomoTickets (fomoPercentage : Nat) (realSoldTickets : List Nat)
    (draws : List Nat) : List Nat :=
  if realSoldTickets.length * 100 ≥ 18 * TOTAL_TICKETS then
    realSoldTickets
  else
    let targetCount := fomoPercentage * TOTAL_TICKETS / 100
    let fomoNeeded := targetCount - realSoldTickets.length
    if fomoNeeded = 0 then
      realSoldTickets
    else
      let fomoTickets := fomoLoop realSoldTickets fomoNeeded draws []
      (realSoldTickets ++ fomoTickets).insertionSort (· ≤ ·)

/-- Store synchronization performed by `loadInitialData` (connected case):
split the fetched rows by status, pad the sold list through the FOMO
generator, and write both lists into the Zustand store. -/
def loadInitialData (ticketsData : List (Nat × DBStatus)) (fomoPercentage : Nat)
    (draws : List Nat) (s : RaffleState) : RaffleState :=
  let realSoldTickets := (ticketsData.filter (fun t => t.2 = .vendido)).map (·.1)
  let reservedTickets := (ticketsData.filter (fun t => t.2 = .reservado)).map (·.1)
  let visualSoldTickets := generateFomoTickets fomoPercentage realSoldTickets draws
  setReservedTicketsFromDB reservedTickets (setSoldTicketsFromDB visualSoldTickets s)

/-! Helper lemmas shared by several claims. -/

/-- Unfold `List.contains` on `Nat` into a decidable membership. -/
theorem contains_eq_decide_mem (l : List Nat) (a : Nat) :
    l.contains a = decide (a ∈ l) :=
  List.elem_eq_mem a l

/-- Length of the negative filter in terms of the positive one. -/
theorem length_filter_not (p : Nat → Bool) (l : List Nat) :
    (l.filter (fun a => !(p a))).length = l.length - (l.filter p).length := by
  induction l with
  | nil => simp
  | cons a l ih =>
    have hle := List.length_filter_le p l
    by_cases h : p a
    · simp [List.filter_cons, h, ih]
    · simp [List.filter_cons, h, ih]
      omega

/-- The sold-or-reserved filter over the full range is a permutation of the
concatenation of the two lists, when they are duplicate-free, disjoint and
within range. -/
theorem unavailable_filter_perm (sold res : List Nat)
    (hs : sold.Nodup) (hr : res.Nodup) (hd : ∀ n ∈ sold, n ∉ res)
    (hss : ∀ n ∈ sold, n ∈ List.range' 1 TOTAL_TICKETS)
    (hrr : ∀ n ∈ res, n ∈ List.range' 1 TOTAL_TICKETS) :
    List.Perm
      ((List.range' 1 TOTAL_TICKETS).filter (fun n => sold.contains n || res.contains n))
      (sold ++ res) := by
  apply (List.perm_ext_iff_of_nodup
    ((List.nodup_range' 1 TOTAL_TICKETS).filter _) (hs.append hr hd)).mpr
  intro a
  simp only [List.mem_filter, contains_eq_decide_mem, Bool.or_eq_true,
    decide_eq_true_eq, List.mem_append]
  constructor
  · exact fun h => h.2
  · intro h
    refine ⟨?_, h⟩
    rcases h with h | h
    · exact hss a h
    · exact hrr a h

/-! Claim C5. -/

/-- C5: display-layer closed form. For every master-counter snapshot, both
display hooks publish `displaySold + displayAvailable + reserved = total`,
because the available count is derived as `total - displaySold - reserved`
rather than measured independently. -/
theorem C5_display_invariant (data : MasterCounterData) :
    ((useBasicCounters data).soldTickets : Int) + (useBasicCounters data).availableTickets
        + (data.reservedTickets : Int) = (TOTAL_TICKETS : Int) ∧
    ((useDisplayStats data).soldCount : Int) + (useDisplayStats data).availableCount
        + ((useDisplayStats data).reservedCount : Int) = (TOTAL_TICKETS : Int) := by
  constructor
  · simp only [useBasicCounters, useDisplayStats]
    ring
  · simp only [useBasicCounters, useDisplayStats]
    ring

/-! Claim C6. -/

/-- C6: overlay activation rule. At or above the 18% threshold the overlay is
disabled and the display sold count equals the real one; below the threshold
it is active and adds the fixed 1200. -/
theorem C6_overlay_activation (sold : Nat) :
    (1800 ≤ sold →
      (calculateFOMO sold).displaySoldCount = sold ∧
        (calculateFOMO sold).isActive = false) ∧
    (sold < 1800 →
      (calculateFOMO sold).displaySoldCount = sold + FOMO_BASE_FIXED ∧
        (calculateFOMO sold).isActive = true) := by
  unfold calculateFOMO FOMO_THRESHOLD TOTAL_TICKETS
  constructor
  · intro h
    rw [if_pos (by omega)]
    exact ⟨rfl, rfl⟩
  · intro h
    rw [if_neg (by omega)]
    exact ⟨rfl, rfl⟩

/-- Witness for C6, at a sold count above and one below the threshold. -/
theorem C6_overlay_activation_witness :
    ((calculateFOMO 2000).displaySoldCount = 2000 ∧
      (calculateFOMO 2000).isActive = false) ∧
    ((calculateFOMO 1000).displaySoldCount = 1000 + FOMO_BASE_FIXED ∧
      (calculateFOMO 1000).isActive = true) :=
  ⟨(C6_overlay_activation 2000).1 (by decide),
   (C6_overlay_activation 1000).2 (by decide)⟩

/-! Claim C1. -/

/-- C1 counterexample: no clamping exists. With real sold 1000 and reserved
9000 (so sold + reserved is within the pool), the overlay is active, the
display sold count becomes 2200, and the published display available count is
negative. -/
theorem C1_no_clamp_counterexample :
    1000 + 9000 ≤ TOTAL_TICKETS ∧
    (useBasicCounters (updateMasterCounters 1000 9000)).availableTickets < 0 := by
  constructor
  · decide
  · decide

/-- C1 amended: the display available count is nonnegative when the overlay
is disabled by the 18% threshold, or when the fixed additive still fits under
the total; and in the cited instance (sold 8900, reserved 50) the display
sold count is 8900, below the 9950 bound, because the threshold disables the
overlay (there is no clamping step). -/
theorem C1_display_available_nonneg (sold reserved : Nat)
    (hsr : sold + reserved ≤ TOTAL_TICKETS)
    (h : 1800 ≤ sold ∨ sold + FOMO_BASE_FIXED + reserved ≤ TOTAL_TICKETS) :
    0 ≤ (useBasicCounters (updateMasterCounters sold reserved)).availableTickets ∧
    (useBasicCounters (updateMasterCounters 8900 50)).soldTickets = 8900 ∧
    (useBasicCounters (updateMasterCounters 8900 50)).soldTickets ≤ 9950 := by
  refine ⟨?_, by decide, by decide⟩
  simp only [useBasicCounters, updateMasterCounters, calculateFOMO, FOMO_THRESHOLD,
    FOMO_BASE_FIXED, TOTAL_TICKETS] at hsr h ⊢
  by_cases hc : sold * 100 ≥ 18 * 10000
  · rw [if_pos hc]
    simp only
    omega
  · rw [if_neg hc]
    simp only
    omega

/-- Witness for C1, at the instance named by the claim. -/
theorem C1_display_available_nonneg_witness :
    0 ≤ (useBasicCounters (updateMasterCounters 8900 50)).availableTickets ∧
    (useBasicCounters (updateMasterCounters 8900 50)).soldTickets = 8900 ∧
    (useBasicCounters (updateMasterCounters 8900 50)).soldTickets ≤ 9950 :=
  C1_display_available_nonneg 8900 50 (by decide) (Or.inl (by decide))

/-! Demonstration states used by concrete counterexamples and witnesses. -/

/-- Constant id generator standing in for `generateId()`. -/
def demoIdGen : Nat → String := fun _ => "id"

/-- Store state with ticket 1 sold and nothing reserved. -/
def c2State : RaffleState :=
  { tickets := [], selectedTickets := [], soldTickets := [1],
    reservedTickets := [], availableTickets := [], errors := [] }

/-- Database in which ticket 1 is sold and every other ticket available. -/
def c2db : Nat → DBRow := fun n =>
  if n = 1 then { status := .vendido } else { status := .disponible }

/-- Store state with ticket 1 reserved and nothing sold. -/
def c3State : RaffleState :=
  { tickets := [], selectedTickets := [], soldTickets := [],
    reservedTickets := [1], availableTickets := [], errors := [] }

/-- Empty store state. -/
def emptyState : RaffleState :=
  { tickets := [], selectedTickets := [], soldTickets := [],
    reservedTickets := [], availableTickets := [], errors := [] }

/-! Claim C2. -/

/-- C2 counterexample: reservation is not all-or-nothing. Requesting tickets
1 and 2 while ticket 1 is already sold still changes state: the store action
appends both numbers to the reserved list, and the database conditional
update transitions ticket 2 to reserved while reporting success. -/
theorem C2_all_or_nothing_counterexample :
    1 ∈ c2State.soldTickets ∧ 2 ∉ c2State.soldTickets ∧ 2 ∉ c2State.reservedTickets ∧
    2 ∈ (reserveTickets [1, 2] "c" demoIdGen 0 c2State).reservedTickets ∧
    (c2db 1).status = DBStatus.vendido ∧
    ((reserveTicketsInDB [1, 2] "c" 0 c2db).1 2).status = DBStatus.reservado ∧
    (reserveTicketsInDB [1, 2] "c" 0 c2db).2 = true := by
  refine ⟨by decide, by decide, by decide, ?_, by decide, by decide, rfl⟩
  show 2 ∈ c2State.reservedTickets ++ [1, 2]
  decide

/-- C2 amended: reservation is per-ticket conditional rather than
all-or-nothing. The database update transitions exactly the requested
tickets that are currently available and leaves every other row unchanged,
reporting success regardless of conflicts; the store action appends every
requested number to the reserved list with no availability check. -/
theorem C2_reserve_per_ticket (nums : List Nat) (cid : String)
    (idGen : Nat → String) (now : Nat) (db : Nat → DBRow) (s : RaffleState)
    (n : Nat) :
    (n ∈ nums → (db n).status = DBStatus.disponible →
      (reserveTicketsInDB nums cid now db).1 n =
        { status := .reservado, customerId := some cid, reservedAt := some now }) ∧
    ((db n).status ≠ DBStatus.disponible →
      (reserveTicketsInDB nums cid now db).1 n = db n) ∧
    (n ∉ nums → (reserveTicketsInDB nums cid now db).1 n = db n) ∧
    (reserveTicketsInDB nums cid now db).2 = true ∧
    (reserveTickets nums cid idGen now s).reservedTickets = s.reservedTickets ++ nums := by
  refine ⟨?_, ?_, ?_, rfl, rfl⟩
  · intro hn hst
    simp [reserveTicketsInDB, contains_eq_decide_mem, hn, hst]
  · intro hst
    simp [reserveTicketsInDB, contains_eq_decide_mem, hst]
  · intro hn
    simp [reserveTicketsInDB, contains_eq_decide_mem, hn]

/-- Witness for C2 amended, at the two-ticket request against `c2db`. -/
theorem C2_reserve_per_ticket_witness :
    (2 ∈ [1, 2] ∧ (c2db 2).status = DBStatus.disponible) ∧
    (reserveTicketsInDB [1, 2] "c" 0 c2db).1 2 =
      { status := .reservado, customerId := some "c", reservedAt := some 0 } :=
  ⟨⟨by decide, by decide⟩,
   (C2_reserve_per_ticket [1, 2] "c" demoIdGen 0 c2db c2State 2).1
     (by decide) (by decide)⟩

/-! Claim C3. -/

/-- C3 counterexample: confirming twice is not a rejected no-op. Starting
from ticket 1 reserved, the first `markTicketsAsSold` call yields one sold
ticket; the second call for the same number appends it again, so the sold
count rises to 2. -/
theorem C3_exactly_once_counterexample :
    (markTicketsAsSold [1] "c" demoIdGen 0 c3State).soldTickets.length = 1 ∧
    (markTicketsAsSold [1] "c" demoIdGen 0
        (markTicketsAsSold [1] "c" demoIdGen 0 c3State)).soldTickets.length = 2 := by
  constructor
  · show (c3State.soldTickets ++ [1]).length = 1
    decide
  · show ((c3State.soldTickets ++ [1]) ++ [1]).length = 2
    decide

/-- C3 amended: `markTicketsAsSold` appends unconditionally, so a second
call with the same numbers grows the sold list by them again (the sold
count increases twice); only the removal from the reserved list is
idempotent. There is no `ReservationNotFound` check. -/
theorem C3_confirm_appends_twice (nums : List Nat) (cid : String)
    (idGen : Nat → String) (t1 t2 : Nat) (s : RaffleState) :
    (markTicketsAsSold nums cid idGen t2
        (markTicketsAsSold nums cid idGen t1 s)).soldTickets
      = s.soldTickets ++ nums ++ nums ∧
    (markTicketsAsSold nums cid idGen t2
        (markTicketsAsSold nums cid idGen t1 s)).reservedTickets
      = (markTicketsAsSold nums cid idGen t1 s).reservedTickets := by
  constructor
  · rfl
  · show (s.reservedTickets.filter _).filter _ = s.reservedTickets.filter _
    simp [List.filter_filter]

/-! Claim C4. -/

/-- The filter selecting the single overlapping number 5 from the range is a
permutation of `[5]`. -/
theorem overlap_filter_perm :
    List.Perm
      ((List.range' 1 TOTAL_TICKETS).filter
        (fun n => ([5] : List Nat).contains n || ([5] : List Nat).contains n))
      [5] := by
  apply (List.perm_ext_iff_of_nodup
    ((List.nodup_range' 1 TOTAL_TICKETS).filter _) (by decide)).mpr
  intro a
  simp only [List.mem_filter, contains_eq_decide_mem, Bool.or_eq_true,
    decide_eq_true_eq, List.mem_range'_1, List.mem_singleton, or_self]
  have ht : TOTAL_TICKETS = 10000 := rfl
  constructor
  · exact fun h => h.2
  · intro h
    subst h
    omega

/-- C4 counterexample: after the FOMO sync path writes a sold list and a
reserved list that share ticket 5 into the store, the recomputed real counts
sum to 10001, not 10000. -/
theorem C4_sync_invariant_counterexample :
    5 ∈ (setReservedTicketsFromDB [5] (setSoldTicketsFromDB [5] emptyState)).soldTickets ∧
    5 ∈ (setReservedTicketsFromDB [5] (setSoldTicketsFromDB [5] emptyState)).reservedTickets ∧
    (setReservedTicketsFromDB [5] (setSoldTicketsFromDB [5] emptyState)).soldTickets.length
      + (setReservedTicketsFromDB [5] (setSoldTicketsFromDB [5] emptyState)).reservedTickets.length
      + (setReservedTicketsFromDB [5] (setSoldTicketsFromDB [5] emptyState)).availableTickets.length
      ≠ TOTAL_TICKETS := by
  refine ⟨by decide, by decide, ?_⟩
  have hs : (setReservedTicketsFromDB [5] (setSoldTicketsFromDB [5] emptyState)).soldTickets
      = [5] := rfl
  have hr : (setReservedTicketsFromDB [5] (setSoldTicketsFromDB [5] emptyState)).reservedTickets
      = [5] := rfl
  have ha : (setReservedTicketsFromDB [5] (setSoldTicketsFromDB [5] emptyState)).availableTickets
      = (List.range' 1 TOTAL_TICKETS).filter
          (fun n => !(([5] : List Nat).contains n || ([5] : List Nat).contains n)) := rfl
  rw [hs, hr, ha, length_filter_not, overlap_filter_perm.length_eq, List.length_range']
  decide

/-- C4 amended: the store-side closed form holds whenever the sold and
reserved lists written by the sync are duplicate-free, disjoint, and within
the ticket range; the FOMO sync path can violate those side conditions by
writing overlapping lists, and then the sum exceeds the total. -/
theorem C4_real_invariant_disjoint (sold res : List Nat)
    (hs : sold.Nodup) (hr : res.Nodup) (hd : ∀ n ∈ sold, n ∉ res)
    (hss : ∀ n ∈ sold, n ∈ List.range' 1 TOTAL_TICKETS)
    (hrr : ∀ n ∈ res, n ∈ List.range' 1 TOTAL_TICKETS)
    (s : RaffleState) :
    (setReservedTicketsFromDB res (setSoldTicketsFromDB sold s)).soldTickets.length
      + (setReservedTicketsFromDB res (setSoldTicketsFromDB sold s)).reservedTickets.length
      + (setReservedTicketsFromDB res (setSoldTicketsFromDB sold s)).availableTickets.length
      = TOTAL_TICKETS := by
  have hperm := unavailable_filter_perm sold res hs hr hd hss hrr
  have hs2 : (setReservedTicketsFromDB res (setSoldTicketsFromDB sold s)).soldTickets
      = sold := rfl
  have hr2 : (setReservedTicketsFromDB res (setSoldTicketsFromDB sold s)).reservedTickets
      = res := rfl
  have ha2 : (setReservedTicketsFromDB res (setSoldTicketsFromDB sold s)).availableTickets
      = (List.range' 1 TOTAL_TICKETS).filter
          (fun n => !(sold.contains n || res.contains n)) := rfl
  have hle := List.length_filter_le
    (fun n => sold.contains n || res.contains n) (List.range' 1 TOTAL_TICKETS)
  rw [hperm.length_eq, List.length_append, List.length_range'] at hle
  rw [hs2, hr2, ha2, length_filter_not, hperm.length_eq, List.length_append,
    List.length_range']
  omega

/-- Witness for C4 amended: disjoint in-range lists `[1]` and `[2]`. -/
theorem C4_real_invariant_disjoint_witness :
    (([1] : List Nat).Nodup ∧ ([2] : List Nat).Nodup ∧ (1 : Nat) ∉ ([2] : List Nat)) ∧
    (setReservedTicketsFromDB [2] (setSoldTicketsFromDB [1] emptyState)).soldTickets.length
      + (setReservedTicketsFromDB [2] (setSoldTicketsFromDB [1] emptyState)).reservedTickets.length
      + (setReservedTicketsFromDB [2] (setSoldTicketsFromDB [1] emptyState)).availableTickets.length
      = TOTAL_TICKETS :=
  ⟨⟨by decide, by decide, by decide⟩,
   C4_real_invariant_disjoint [1] [2] (by decide) (by decide) (by decide)
     (by decide) (by decide) emptyState⟩

/-! Claim C7. -/

/-- Applying the release body twice to one ticket equals applying it once:
once released, the ticket is no longer reserved, so the second pass leaves
it alone. -/
theorem releaseTicket_idem (nums : List Nat) (t : Ticket) :
    releaseTicket nums (releaseTicket nums t) = releaseTicket nums t := by
  by_cases h : nums.contains t.number ∧ t.status = TicketStatus.reserved
  · have h1 : releaseTicket nums t =
        { t with status := .available, buyerId := none, reservedAt := none } := by
      unfold releaseTicket
      rw [if_pos h]
    rw [h1]
    unfold releaseTicket
    rw [if_neg]
    intro hc
    exact absurd hc.2 (by simp)
  · have h1 : releaseTicket nums t = t := by
      unfold releaseTicket
      rw [if_neg h]
    rw [h1, h1]

/-- C7: expiry is idempotent. Releasing the same ticket numbers twice in a
row produces exactly the state of releasing them once: the reserved list,
the ticket statuses and the derived available list are all unchanged by the
second application. -/
theorem C7_expire_idempotent (nums : List Nat) (s : RaffleState) :
    releaseReservedTickets nums (releaseReservedTickets nums s)
      = releaseReservedTickets nums s := by
  have hmapf : releaseTicket nums ∘ releaseTicket nums = releaseTicket nums := by
    funext t
    exact releaseTicket_idem nums t
  simp [releaseReservedTickets, updateAvailableTickets, List.map_map, hmapf,
    List.filter_filter]

/-! Claim C8. -/

/-- C8: the `quickSelect` contract. With too few available tickets the call
only records the shortage error and leaves the selection unchanged;
otherwise the new selection has exactly `count` distinct elements, all drawn
from the available list. The random shuffle is modelled by the permutation
parameter `shuffled`. -/
theorem C8_quickSelect_contract (count : Nat) (shuffled : List Nat)
    (s : RaffleState) (hperm : List.Perm shuffled s.availableTickets)
    (hnd : s.availableTickets.Nodup) :
    (s.availableTickets.length < count →
      (quickSelect count shuffled s).selectedTickets = s.selectedTickets ∧
      (quickSelect count shuffled s).errors = s.errors ++
        ["Solo hay " ++ toString s.availableTickets.length ++ " tickets disponibles"]) ∧
    (count ≤ s.availableTickets.length →
      (quickSelect count shuffled s).selectedTickets.length = count ∧
      (quickSelect count shuffled s).selectedTickets.Nodup ∧
      ∀ x ∈ (quickSelect count shuffled s).selectedTickets,
        x ∈ s.availableTickets) := by
  constructor
  · intro h
    unfold quickSelect
    rw [if_pos h]
    exact ⟨rfl, rfl⟩
  · intro h
    have hnotlt : ¬ s.availableTickets.length < count := not_lt.mpr h
    have hsnd : shuffled.Nodup := hperm.nodup_iff.mpr hnd
    have hpermsort := List.perm_insertionSort (· ≤ ·) (shuffled.take count)
    unfold quickSelect
    rw [if_neg hnotlt]
    refine ⟨?_, ?_, ?_⟩
    · show ((shuffled.take count).insertionSort (· ≤ ·)).length = count
      rw [hpermsort.length_eq, List.length_take, hperm.length_eq]
      omega
    · show ((shuffled.take count).insertionSort (· ≤ ·)).Nodup
      exact hpermsort.nodup_iff.mpr ((List.take_sublist count shuffled).nodup hsnd)
    · intro x hx
      have hx2 : x ∈ shuffled.take count := hpermsort.mem_iff.mp hx
      exact hperm.mem_iff.mp (List.take_subset count shuffled hx2)

/-- Store state with three available tickets and a prior selection. -/
def c8State : RaffleState :=
  { tickets := [], selectedTickets := [9], soldTickets := [],
    reservedTickets := [], availableTickets := [3, 1, 2], errors := [] }

/-- Witness for C8: drawing 2 of the 3 available tickets. -/
theorem C8_quickSelect_contract_witness :
    (List.Perm [2, 3, 1] c8State.availableTickets ∧
      c8State.availableTickets.Nodup ∧ 2 ≤ c8State.availableTickets.length) ∧
    ((quickSelect 2 [2, 3, 1] c8State).selectedTickets.length = 2 ∧
      (quickSelect 2 [2, 3, 1] c8State).selectedTickets.Nodup ∧
      ∀ x ∈ (quickSelect 2 [2, 3, 1] c8State).selectedTickets,
        x ∈ c8State.availableTickets) :=
  ⟨⟨by decide, by decide, by decide⟩,
   (C8_quickSelect_contract 2 [2, 3, 1] c8State (by decide) (by decide)).2
     (by decide)⟩

/-! Claim C10. -/

/-- C10: a successful `quickSelect` replaces the whole selection. The
resulting selection is exactly the sorted list of the `count` freshly drawn
numbers, every selected number comes from the fresh draw, and the result
does not depend on the prior selection at all. -/
theorem C10_quickSelect_replaces (count : Nat) (shuffled : List Nat)
    (s : RaffleState) (h : count ≤ s.availableTickets.length) :
    (quickSelect count shuffled s).selectedTickets
      = (shuffled.take count).insertionSort (· ≤ ·) ∧
    (∀ x ∈ (quickSelect count shuffled s).selectedTickets,
      x ∈ shuffled.take count) ∧
    ∀ prior : List Nat,
      (quickSelect count shuffled { s with selectedTickets := prior }).selectedTickets
        = (quickSelect count shuffled s).selectedTickets := by
  have hnotlt : ¬ s.availableTickets.length < count := not_lt.mpr h
  have key : ∀ st : RaffleState, st.availableTickets = s.availableTickets →
      (quickSelect count shuffled st).selectedTickets
        = (shuffled.take count).insertionSort (· ≤ ·) := by
    intro st hst
    unfold quickSelect
    rw [hst, if_neg hnotlt]
  refine ⟨key s rfl, ?_,
    fun prior => (key { s with selectedTickets := prior } rfl).trans (key s rfl).symm⟩
  intro x hx
  rw [key s rfl] at hx
  exact (List.perm_insertionSort (· ≤ ·) (shuffled.take count)).mem_iff.mp hx

/-- Witness for C10, at the same concrete draw as the C8 witness. -/
theorem C10_quickSelect_replaces_witness :
    2 ≤ c8State.availableTickets.length ∧
    (quickSelect 2 [2, 3, 1] c8State).selectedTickets
      = ([2, 3, 1].take 2).insertionSort (· ≤ ·) :=
  ⟨by decide, (C10_quickSelect_replaces 2 [2, 3, 1] c8State (by decide)).1⟩

/-! Claim C9. -/

/-- Fetched rows: tickets 1..799 sold and ticket 9999 reserved. -/
def c9Data : List (Nat × DBStatus) :=
  ((List.range' 1 799).map (fun n => (n, DBStatus.vendido))) ++ [(9999, DBStatus.reservado)]

/-- The sold split of `c9Data`. -/
theorem c9Data_sold_split :
    (c9Data.filter (fun t => t.2 = DBStatus.vendido)).map (·.1) = List.range' 1 799 := by
  simp [c9Data, List.filter_append, List.filter_map, Function.comp_def]

/-- The reserved split of `c9Data`. -/
theorem c9Data_reserved_split :
    (c9Data.filter (fun t => t.2 = DBStatus.reservado)).map (·.1) = [9999] := by
  simp [c9Data, List.filter_append, List.filter_map, Function.comp_def]

/-- The number 9999 is not among the 799 real sold tickets. -/
theorem c9_contains_draw :
    (List.range' 1 799).contains 9999 = false := by
  rw [contains_eq_decide_mem]
  simp [List.mem_range'_1]

/-- One draw suffices: the rejection loop accepts 9999. -/
theorem c9_fomoLoop_eval :
    fomoLoop (List.range' 1 799) 1 [9999] [] = [9999] := by
  simp [fomoLoop, c9_contains_draw]

/-- Evaluation of the FOMO generator at 799 real sold tickets, target
percentage 8 and the single draw 9999. -/
theorem c9_generateFomo_eval :
    generateFomoTickets 8 (List.range' 1 799) [9999]
      = ((List.range' 1 799) ++ [9999]).insertionSort (· ≤ ·) := by
  unfold generateFomoTickets
  rw [if_neg (by simp [TOTAL_TICKETS]), if_neg (by simp [TOTAL_TICKETS])]
  rw [show (8 * TOTAL_TICKETS / 100 - (List.range' 1 799).length) = 1 by
    simp [TOTAL_TICKETS]]
  rw [c9_fomoLoop_eval]

/-- Projection of the sold list written by `loadInitialData`. -/
theorem loadInitialData_soldTickets (ticketsData : List (Nat × DBStatus))
    (fomoPercentage : Nat) (draws : List Nat) (s : RaffleState) :
    (loadInitialData ticketsData fomoPercentage draws s).soldTickets
      = generateFomoTickets fomoPercentage
          ((ticketsData.filter (fun t => t.2 = DBStatus.vendido)).map (·.1)) draws :=
  rfl

/-- Projection of the reserved list written by `loadInitialData`. -/
theorem loadInitialData_reservedTickets (ticketsData : List (Nat × DBStatus))
    (fomoPercentage : Nat) (draws : List Nat) (s : RaffleState) :
    (loadInitialData ticketsData fomoPercentage draws s).reservedTickets
      = (ticketsData.filter (fun t => t.2 = DBStatus.reservado)).map (·.1) :=
  rfl

/-- C9: the FOMO generator excludes only real sold numbers, not reserved
ones, so the sync path can write a sold list into the store that overlaps
the reserved list: with rows 1..799 sold, 9999 reserved, target percentage 8
and the random draw 9999, ticket 9999 ends up in both store lists. -/
theorem C9_fomo_overlaps_reserved :
    ∃ (ticketsData : List (Nat × DBStatus)) (fomoPercentage : Nat)
      (draws : List Nat) (s : RaffleState) (t : Nat),
      t ∈ (loadInitialData ticketsData fomoPercentage draws s).soldTickets ∧
      t ∈ (loadInitialData ticketsData fomoPercentage draws s).reservedTickets := by
  refine ⟨c9Data, 8, [9999], emptyState, 9999, ?_, ?_⟩
  · rw [loadInitialData_soldTickets, c9Data_sold_split, c9_generateFomo_eval]
    exact (List.perm_insertionSort (· ≤ ·) _).mem_iff.mpr (by simp)
  · rw [loadInitialData_reservedTickets, c9Data_reserved_split]
    simp
